import Mathlib

/-!
Shallow embedding of the ClearMind AI-content detectors
(`text_detector.py` and `image_detector.py`).

Conventions of the embedding:
* Python floats are modelled by exact arithmetic: `ℚ` for values built only
  from field operations, `ℝ` where `math.log` / `math.exp` / `np.std`
  (square root) occur.
* Python strings are modelled by `String`; `re.findall(r'\b\w+\b', ...)`,
  `re.split(r'[.!?]+', ...)`, `str.strip()` and `str.split()` are embedded as
  explicit functions on the character list (ASCII semantics).
* External libraries (`transformers`/`torch` in the text detector, `cv2` in
  the image detector) are modelled as parameters: every call into them is a
  field of an environment record and returns `Except Unit _`, so that it may
  fail.  `try/except` blocks of the source become `match` on the `Except`.
* Python dict results become structures / inductives mirroring the dict keys.
-/

namespace ClearMind

/-- Characters matched by the regex class `\w` (ASCII semantics). -/
def isWordChar (c : Char) : Bool := c.isAlphanum || c == '_'

/-- Sentence delimiters of `re.split(r'[.!?]+', ...)`. -/
def isSentenceDelim (c : Char) : Bool := c == '.' || c == '!' || c == '?'

/-- Maximal runs of characters satisfying `p`; the accumulator holds the
current run reversed. -/
def splitRunsAux (p : Char → Bool) : List Char → List Char → List (List Char)
  | [], acc => if acc.isEmpty then [] else [acc.reverse]
  | c :: cs, acc =>
    if p c then splitRunsAux p cs (c :: acc)
    else if acc.isEmpty then splitRunsAux p cs []
    else acc.reverse :: splitRunsAux p cs []

/-- Maximal runs of characters satisfying `p` in a character list. -/
def splitRuns (p : Char → Bool) (cs : List Char) : List (List Char) :=
  splitRunsAux p cs []

/-- `str.strip()`: drop whitespace at both ends. -/
def pyStrip (s : String) : String :=
  ⟨((s.data.dropWhile Char.isWhitespace).reverse.dropWhile Char.isWhitespace).reverse⟩

/-- `re.findall(r'\b\w+\b', text.lower())`: the maximal `\w`-runs of the
lowercased text.  Used by every text sub-analyzer. -/
def wordsOf (s : String) : List String :=
  (splitRuns isWordChar (s.data.map Char.toLower)).map (fun cs => ⟨cs⟩)

/-- `re.split(r'[.!?]+', text.strip())`, with the empty pieces dropped.
The source always filters the pieces by `s.strip()` being non-empty, so
dropping the empty pieces here is behaviour-preserving. -/
def sentenceSplit (s : String) : List String :=
  (splitRuns (fun c => !isSentenceDelim c) (pyStrip s).data).map (fun cs => ⟨cs⟩)

/-- `len(s.split())`: number of maximal non-whitespace runs. -/
def splitWsCount (s : String) : ℕ :=
  (splitRuns (fun c => !c.isWhitespace) s.data).length

/-- `' '.join(ws)` for the n-gram builders. -/
def joinSpace (ws : List String) : String := String.intercalate " " ws

/-- `[' '.join(words[i:i+2]) for i in range(len(words)-1)]`. -/
def bigramsList (ws : List String) : List String :=
  (List.range (ws.length - 1)).map (fun i => joinSpace ((ws.drop i).take 2))

/-- `[' '.join(words[i:i+3]) for i in range(len(words)-2)]`. -/
def trigramsList (ws : List String) : List String :=
  (List.range (ws.length - 2)).map (fun i => joinSpace ((ws.drop i).take 3))

/-- `np.mean` on a list of rationals (guarded non-empty at all call sites). -/
def npMean (l : List ℚ) : ℚ := l.sum / l.length

/-- `np.std l ^ 2`: the population variance used by `np.std`. -/
def npVariance (l : List ℚ) : ℚ :=
  (l.map (fun x => (x - npMean l) ^ 2)).sum / l.length

namespace TextAIDetector

/-- The dict returned by `TextAIDetector._extract_writing_features`. -/
structure WritingFeatures where
  word_count : ℕ
  sentence_count : ℕ
  avg_sentence_length : ℚ
  unique_words : ℕ
  vocabulary_diversity : ℚ
  avg_word_length : ℚ
  deriving DecidableEq, Repr

/-- `TextAIDetector._extract_writing_features` (text_detector.py 135-147). -/
def extract_writing_features (t : String) : WritingFeatures :=
  let sentences := sentenceSplit t
  let words := wordsOf t
  let sentence_count := (sentences.filter (fun s => pyStrip s ≠ "")).length
  { word_count := words.length
    sentence_count := sentence_count
    avg_sentence_length := (words.length : ℚ) / (max sentence_count 1 : ℕ)
    unique_words := words.dedup.length
    vocabulary_diversity := (words.dedup.length : ℚ) / (max words.length 1 : ℕ)
    avg_word_length := ((words.map String.length).sum : ℚ) / (max words.length 1 : ℕ) }

/-- `TextAIDetector._analyze_repetition` (text_detector.py 149-164). -/
def analyze_repetition (t : String) : ℚ :=
  let words := wordsOf t
  if words.length < 10 then 0.5
  else
    let bigrams := bigramsList words
    let trigrams := trigramsList words
    let bigram_repetition := bigrams.length - bigrams.dedup.length
    let trigram_repetition := trigrams.length - trigrams.dedup.length
    let repetition_score : ℚ :=
      ((bigram_repetition + trigram_repetition : ℕ) : ℚ) / (max words.length 1 : ℕ)
    min 1 (repetition_score * 10)

/-- `TextAIDetector._analyze_vocabulary_diversity` (text_detector.py 166-174). -/
def analyze_vocabulary_diversity (t : String) : ℚ :=
  let words := wordsOf t
  if words.length < 5 then 0.5
  else 1 - (words.dedup.length : ℚ) / (words.length : ℚ)

/-- `TextAIDetector._analyze_sentence_structure` (text_detector.py 176-191).
`np.std` is `Real.sqrt` of the population variance, hence the value is real. -/
noncomputable def analyze_sentence_structure (t : String) : ℝ :=
  let sentences := (sentenceSplit t).filter (fun s => pyStrip s ≠ "") |>.map pyStrip
  if sentences.length < 2 then 0.5
  else
    let lengths : List ℚ := sentences.map (fun s => (splitWsCount s : ℚ))
    let mean_length := npMean lengths
    let std_length : ℝ := Real.sqrt (npVariance lengths : ℚ)
    let cv : ℝ := if 0 < mean_length then std_length / (mean_length : ℝ) else 1
    max 0 (1 - cv)

/-- `TextAIDetector._calculate_perplexity` (text_detector.py 193-217).
The bigram frequency table lookup `bigram_freq[bigram] / len(bigrams)` is
`count` of the bigram over the length. -/
noncomputable def calculate_perplexity (t : String) : ℝ :=
  let words := wordsOf t
  if words.length < 10 then 0.5
  else
    let bigrams := bigramsList words
    let total_prob : ℝ :=
      (bigrams.map (fun b =>
        let prob : ℚ := (bigrams.count b : ℚ) / (bigrams.length : ℚ)
        if 0 < prob then Real.log (prob : ℝ) else -10)).sum
    let avg_log_prob := total_prob / (bigrams.length : ℝ)
    let perplexity := Real.exp (-avg_log_prob)
    max 0 (min 1 (1 - perplexity / 100))

/-- `TextAIDetector._calculate_confidence` (text_detector.py 219-231), as a
function of the `word_count` obtained from the features dict. -/
def calculate_confidence (word_count : ℕ) : ℝ :=
  if word_count < 10 then 0.3
  else if word_count < 50 then 0.6
  else if word_count < 200 then 0.8
  else 0.9

/-- The `analysis` dict of a text detection result: either the heuristic
payload (text_detector.py 125-132) or the ML payload (text_detector.py 56-61). -/
inductive TextAnalysis where
  | heuristic (features : WritingFeatures) (repetition_score vocab_score : ℚ)
      (structure_score perplexity : ℝ)
  | mlModel (model : String) (features : WritingFeatures) (perplexity : ℝ)

/-- The `"method"` entry of the analysis dict. -/
def TextAnalysis.method : TextAnalysis → String
  | .heuristic _ _ _ _ _ => "heuristic"
  | .mlModel _ _ _ => "ml_model"

/-- The key set of the analysis dict as written in the source. -/
def TextAnalysis.keys : TextAnalysis → List String
  | .heuristic _ _ _ _ _ =>
      ["method", "features", "repetition_score", "vocab_score",
       "structure_score", "perplexity"]
  | .mlModel _ _ _ => ["method", "model", "features", "perplexity"]

/-- The dict returned by `detect`. -/
structure TextResult where
  ai_probability : ℝ
  confidence : ℝ
  analysis : TextAnalysis

/-- `TextAIDetector._heuristic_detection` (text_detector.py 90-133). -/
noncomputable def heuristic_detection (t : String) : TextResult :=
  let features := extract_writing_features t
  let repetition_score := analyze_repetition t
  let vocab_score := analyze_vocabulary_diversity t
  let structure_score := analyze_sentence_structure t
  let perplexity_score := calculate_perplexity t
  let ai_score : ℝ := (repetition_score : ℝ) * 0.3 + (vocab_score : ℝ) * 0.2 +
    structure_score * 0.25 + perplexity_score * 0.25
  let total_weight : ℝ := 0.3 + 0.2 + 0.25 + 0.25
  let ai_probability := min 1 (max 0 (ai_score / total_weight))
  let confidence := calculate_confidence features.word_count
  ⟨ai_probability, confidence,
    .heuristic features repetition_score vocab_score structure_score perplexity_score⟩

/-- The environment of external `transformers`/`torch` operations used by the
ML tier.  `P` is the type of the `probabilities` tensor.  Each field models
one fallible call into the external library:

* `transformersAvailable` — the module-level `TRANSFORMERS_AVAILABLE` flag;
* `modelLoaded` — whether `self.model` is not `None`;
* `modelRun` — tokenize + `self.model(**inputs)` + `torch.softmax`
  (text_detector.py 43-47);
* `baseProb` — `float(probabilities[0][-1])` (text_detector.py 71);
* `probsWordCount` — `probabilities.get("word_count", 0)` as evaluated on the
  tensor that `_ml_detection` passes to `_calculate_confidence`
  (text_detector.py 51 and 222). -/
structure MLEnv (P : Type) where
  transformersAvailable : Bool
  modelLoaded : Bool
  modelRun : String → Except Unit P
  baseProb : P → Except Unit ℝ
  probsWordCount : P → Except Unit ℕ

/-- `TextAIDetector._calculate_ai_probability` (text_detector.py 67-88): the
whole body is inside `try`, whose only fallible step is the tensor indexing
`probabilities[0][-1]`; any failure returns `0.5`. -/
noncomputable def calculate_ai_probability {P : Type} (env : MLEnv P) (t : String)
    (p : P) : ℝ :=
  match env.baseProb p with
  | .error _ => 0.5
  | .ok base_prob =>
    let features := extract_writing_features t
    let repetition_score := analyze_repetition t
    let vocab_score := analyze_vocabulary_diversity t
    let heuristic_score : ℝ := (repetition_score : ℝ) * 0.4 + (vocab_score : ℝ) * 0.3 +
      (1 - (features.vocabulary_diversity : ℝ)) * 0.3
    let final_prob := base_prob * 0.7 + heuristic_score * 0.3
    min 1 (max 0 final_prob)

/-- The `try` block of `TextAIDetector._ml_detection` (text_detector.py 41-62).
`_calculate_confidence(text, probabilities)` is not guarded by its own
`try`, so a failure of the tensor `.get` escapes to the enclosing handler. -/
noncomputable def ml_detection_try {P : Type} (env : MLEnv P) (t : String) :
    Except Unit TextResult :=
  match env.modelRun t with
  | .error e => .error e
  | .ok p =>
    let ai_prob := calculate_ai_probability env t p
    match env.probsWordCount p with
    | .error e => .error e
    | .ok wc =>
      let confidence := calculate_confidence wc
      .ok ⟨ai_prob, confidence,
        .mlModel "transformers" (extract_writing_features t) (calculate_perplexity t)⟩

/-- `TextAIDetector._ml_detection` (text_detector.py 39-65): the `except`
clause falls back to `_heuristic_detection`, which is infallible. -/
noncomputable def ml_detection {P : Type} (env : MLEnv P) (t : String) :
    Except Unit TextResult :=
  match ml_detection_try env t with
  | .ok r => .ok r
  | .error _ => .ok (heuristic_detection t)

/-- `TextAIDetector.detect` (text_detector.py 32-37).  The result is
`Except`-valued so that a hypothetical escaping exception would be visible as
an `.error`. -/
noncomputable def detect {P : Type} (env : MLEnv P) (t : String) :
    Except Unit TextResult :=
  if env.transformersAvailable && env.modelLoaded then ml_detection env t
  else .ok (heuristic_detection t)

end TextAIDetector

namespace ImageAIDetector

/-- `ImageAIDetector._analyze_metadata` (image_detector.py 177-197).  The
`try` body consists of `len(image_data)` and integer comparisons, none of
which can fail, so the `except` branch (returning `0.5`) is unreachable and
the function is the pure step function of the byte length. -/
def analyze_metadata (image_data : List ℕ) : ℚ :=
  let size := image_data.length
  if size < 10000 then 0.3
  else if size < 50000 then 0.5
  else if size < 200000 then 0.6
  else if size < 1000000 then 0.7
  else 0.8

/-- The `analysis` dict of an image detection result: advanced payload
(image_detector.py 60-68), basic payload (89-93) or terminal fallback (99). -/
inductive ImageAnalysis where
  | advanced (frequency_analysis artifact_detection metadata_analysis texture_analysis : ℚ)
      (image_size : String) (channels : ℕ)
  | basic (file_size : ℕ) (metadata_score : ℚ)
  | fallback

/-- The `"method"` entry of the analysis dict. -/
def ImageAnalysis.method : ImageAnalysis → String
  | .advanced _ _ _ _ _ _ => "advanced_cv"
  | .basic _ _ => "basic"
  | .fallback => "fallback"

/-- The dict returned by `detect`. -/
structure ImageResult where
  ai_probability : ℚ
  confidence : ℚ
  analysis : ImageAnalysis

/-- The terminal fallback result (image_detector.py 96-100). -/
def fallback_result : ImageResult := ⟨0.5, 0.3, .fallback⟩

/-- `ImageAIDetector._basic_detection` (image_detector.py 75-100).  The `try`
body consists of `len(image_data)`, `_analyze_metadata` (infallible, see
above) and `min`/`max` arithmetic, so the `except` branch returning
`fallback_result` is unreachable for byte-sequence inputs and the function is
total. -/
def basic_detection (image_data : List ℕ) : ImageResult :=
  let size := image_data.length
  let metadata_score := analyze_metadata image_data
  let ai_probability := min 0.8 (max 0.2 metadata_score)
  let confidence : ℚ := 0.5
  ⟨ai_probability, confidence, .basic size metadata_score⟩

/-- The environment of external `cv2`/`numpy` operations used by the advanced
tier.  `Img` is the type of the decoded image array.

* `opencvAvailable` — `self.opencv_available`;
* `imdecode` — `np.frombuffer` + `cv2.imdecode`, which may raise (`.error`)
  or return `None` (`.ok none`) on undecodable bytes (image_detector.py 30-31);
* `frequencyRaw`/`artifactRaw`/`textureRaw` — the `try` bodies of the three
  cv2-based sub-analyzers (image_detector.py 104-142, 149-172, 201-220);
* `height`/`width`/`channels` — `img.shape`. -/
structure CVEnv (Img : Type) where
  opencvAvailable : Bool
  imdecode : List ℕ → Except Unit (Option Img)
  frequencyRaw : Img → Except Unit ℚ
  artifactRaw : Img → Except Unit ℚ
  textureRaw : Img → Except Unit ℚ
  height : Img → ℕ
  width : Img → ℕ
  channels : Img → ℕ

/-- `ImageAIDetector._frequency_domain_analysis` (image_detector.py 102-145):
the `try` body is external cv2/numpy work, `except` returns `0.5`. -/
def frequency_domain_analysis {Img : Type} (env : CVEnv Img) (img : Img) : ℚ :=
  match env.frequencyRaw img with
  | .ok v => v
  | .error _ => 0.5

/-- `ImageAIDetector._detect_ai_artifacts` (image_detector.py 147-175). -/
def detect_ai_artifacts {Img : Type} (env : CVEnv Img) (img : Img) : ℚ :=
  match env.artifactRaw img with
  | .ok v => v
  | .error _ => 0.5

/-- `ImageAIDetector._analyze_texture_patterns` (image_detector.py 199-223). -/
def analyze_texture_patterns {Img : Type} (env : CVEnv Img) (img : Img) : ℚ :=
  match env.textureRaw img with
  | .ok v => v
  | .error _ => 0.5

/-- `ImageAIDetector._calculate_confidence` (image_detector.py 225-242), as a
function of `img is None`, `img.size` and the first two entries of
`img.shape`. -/
def calculate_confidence_img (isNone : Bool) (size height width : ℕ) : ℚ :=
  if isNone || size == 0 then 0.3
  else if height < 64 || width < 64 then 0.4
  else if height < 256 || width < 256 then 0.6
  else if height < 1024 || width < 1024 then 0.8
  else 0.9

/-- The `try` block of `ImageAIDetector._advanced_detection`
(image_detector.py 28-69). -/
def advanced_detection_try {Img : Type} (env : CVEnv Img) (image_data : List ℕ) :
    Except Unit ImageResult :=
  match env.imdecode image_data with
  | .error e => .error e
  | .ok none => .ok (basic_detection image_data)
  | .ok (some img) =>
    let frequency_score := frequency_domain_analysis env img
    let artifact_score := detect_ai_artifacts env img
    let metadata_score := analyze_metadata image_data
    let texture_score := analyze_texture_patterns env img
    let ai_probability := frequency_score * 0.35 + artifact_score * 0.25 +
      metadata_score * 0.20 + texture_score * 0.20
    let size := env.height img * env.width img * env.channels img
    let confidence := calculate_confidence_img false size (env.height img) (env.width img)
    .ok ⟨ai_probability, confidence,
      .advanced frequency_score artifact_score metadata_score texture_score
        (toString (env.width img) ++ "x" ++ toString (env.height img))
        (env.channels img)⟩

/-- `ImageAIDetector._advanced_detection` (image_detector.py 26-73): the
`except` clause falls back to `_basic_detection`. -/
def advanced_detection {Img : Type} (env : CVEnv Img) (image_data : List ℕ) :
    Except Unit ImageResult :=
  match advanced_detection_try env image_data with
  | .ok r => .ok r
  | .error _ => .ok (basic_detection image_data)

/-- `ImageAIDetector.detect` (image_detector.py 19-24), `Except`-valued like
`TextAIDetector.detect`. -/
def detect {Img : Type} (env : CVEnv Img) (image_data : List ℕ) :
    Except Unit ImageResult :=
  if env.opencvAvailable then advanced_detection env image_data
  else .ok (basic_detection image_data)

end ImageAIDetector

/-- A concrete ML environment in which the `transformers` model is available
and every external call succeeds (tensor type `Unit`). -/
noncomputable def mlEnvOk : TextAIDetector.MLEnv Unit :=
  ⟨true, true, fun _ => .ok (), fun _ => .ok 0.5, fun _ => .ok 5⟩

/-- A concrete CV environment in which OpenCV is available but `cv2.imdecode`
returns `None` on every input (undecodable bytes). -/
def cvEnvNone : ImageAIDetector.CVEnv Unit :=
  ⟨true, fun _ => .ok none, fun _ => .ok 0.5, fun _ => .ok 0.5, fun _ => .ok 0.5,
    fun _ => 0, fun _ => 0, fun _ => 0⟩

/-! ### Helper lemmas -/

/-- Counting an element and deduplicating: a list has at least
`count b l - 1` duplicates. -/
theorem count_add_dedup_le {α : Type} [DecidableEq α] (l : List α) (b : α) :
    l.count b + l.dedup.length ≤ l.length + 1 := by
  induction l with
  | nil => simp
  | cons a l ih =>
    have hd := (List.dedup_sublist l).length_le
    by_cases hm : a ∈ l
    · rw [List.dedup_cons_of_mem hm]
      simp only [List.count_cons, List.length_cons, beq_iff_eq]
      split <;> omega
    · rw [List.dedup_cons_of_not_mem hm]
      simp only [List.count_cons, List.length_cons, beq_iff_eq]
      by_cases hb : b = a
      · subst hb
        have hz : l.count b = 0 := List.count_eq_zero_of_not_mem hm
        simp only [hz]
        split <;> omega
      · split
        · next h => exact absurd h.symm hb
        · omega

/-- The bigram list has one entry per word pair. -/
theorem length_bigramsList (ws : List String) :
    (bigramsList ws).length = ws.length - 1 := by
  simp [bigramsList]

/-- The step function `_calculate_confidence` is monotone in the word count. -/
theorem calculate_confidence_mono {n m : ℕ} (h : n ≤ m) :
    TextAIDetector.calculate_confidence n ≤ TextAIDetector.calculate_confidence m := by
  unfold TextAIDetector.calculate_confidence
  split_ifs <;> first | (exfalso; omega) | norm_num

/-! ### Claim theorems -/

/-- C6: for every non-empty byte sequence processed by the image basic tier
(whose metadata step always succeeds), `ai_probability` equals
`clamp(metadata_score, 0.2, 0.8)` and `confidence` equals `0.5`; a payload of
exactly 5000 bytes yields `metadata_score = 0.3` and `ai_probability = 0.3`. -/
theorem claim_C6_basic_tier (data : List ℕ) (_hne : data ≠ []) :
    (ImageAIDetector.basic_detection data).ai_probability =
      min 0.8 (max 0.2 (ImageAIDetector.analyze_metadata data)) ∧
    (ImageAIDetector.basic_detection data).confidence = 0.5 ∧
    (data.length = 5000 →
      ImageAIDetector.analyze_metadata data = 0.3 ∧
      (ImageAIDetector.basic_detection data).ai_probability = 0.3) := by
  refine ⟨rfl, rfl, fun h => ?_⟩
  have hm : ImageAIDetector.analyze_metadata data = 0.3 := by
    unfold ImageAIDetector.analyze_metadata
    rw [h]
    norm_num
  refine ⟨hm, ?_⟩
  show min 0.8 (max 0.2 (ImageAIDetector.analyze_metadata data)) = 0.3
  rw [hm]
  norm_num

/-- C6 witness: a 5000-byte payload. -/
theorem claim_C6_witness :
    List.replicate 5000 0 ≠ ([] : List ℕ) ∧
    (List.replicate 5000 (0 : ℕ)).length = 5000 ∧
    ImageAIDetector.analyze_metadata (List.replicate 5000 0) = 0.3 ∧
    (ImageAIDetector.basic_detection (List.replicate 5000 0)).ai_probability = 0.3 := by
  have hlen : (List.replicate 5000 (0 : ℕ)).length = 5000 := by
    rw [List.length_replicate]
  have hne : List.replicate 5000 (0 : ℕ) ≠ [] := by
    intro h
    rw [h] at hlen
    simp at hlen
  exact ⟨hne, hlen, (claim_C6_basic_tier (List.replicate 5000 0) hne).2.2 hlen⟩

/-- C9: the lower clamp bound `0.2` of the basic tier is never active:
`_analyze_metadata` only takes values in `{0.3, 0.5, 0.6, 0.7, 0.8}`, so the
basic-tier `ai_probability` equals the metadata score exactly and is never
`0.2`. -/
theorem claim_C9_clamp_inactive (data : List ℕ) :
    (ImageAIDetector.analyze_metadata data = 0.3 ∨
     ImageAIDetector.analyze_metadata data = 0.5 ∨
     ImageAIDetector.analyze_metadata data = 0.6 ∨
     ImageAIDetector.analyze_metadata data = 0.7 ∨
     ImageAIDetector.analyze_metadata data = 0.8) ∧
    min 0.8 (max 0.2 (ImageAIDetector.analyze_metadata data)) =
      ImageAIDetector.analyze_metadata data ∧
    (ImageAIDetector.basic_detection data).ai_probability =
      ImageAIDetector.analyze_metadata data ∧
    (ImageAIDetector.basic_detection data).ai_probability ≠ 0.2 := by
  have hmem : ImageAIDetector.analyze_metadata data = 0.3 ∨
      ImageAIDetector.analyze_metadata data = 0.5 ∨
      ImageAIDetector.analyze_metadata data = 0.6 ∨
      ImageAIDetector.analyze_metadata data = 0.7 ∨
      ImageAIDetector.analyze_metadata data = 0.8 := by
    simp only [ImageAIDetector.analyze_metadata]
    split_ifs <;> norm_num
  have hclamp : min 0.8 (max 0.2 (ImageAIDetector.analyze_metadata data)) =
      ImageAIDetector.analyze_metadata data := by
    rcases hmem with h | h | h | h | h <;> rw [h] <;> norm_num
  have hai : (ImageAIDetector.basic_detection data).ai_probability =
      ImageAIDetector.analyze_metadata data := hclamp
  refine ⟨hmem, hclamp, hai, ?_⟩
  rw [hai]
  rcases hmem with h | h | h | h | h <;> rw [h] <;> norm_num

/-- C7: the text detector's confidence is the step function of the word
count (`<10 ↦ 0.3`, `<50 ↦ 0.6`, `<200 ↦ 0.8`, else `0.9`) and is monotone
non-decreasing in the word count. -/
theorem claim_C7_confidence :
    (∀ n : ℕ, TextAIDetector.calculate_confidence n =
      if n < 10 then 0.3 else if n < 50 then 0.6 else if n < 200 then 0.8 else 0.9) ∧
    (∀ t : String, (TextAIDetector.heuristic_detection t).confidence =
      TextAIDetector.calculate_confidence (wordsOf t).length) ∧
    (∀ t₁ t₂ : String, (wordsOf t₁).length ≤ (wordsOf t₂).length →
      (TextAIDetector.heuristic_detection t₁).confidence ≤
        (TextAIDetector.heuristic_detection t₂).confidence) := by
  refine ⟨fun n => rfl, fun t => rfl, fun t₁ t₂ h => ?_⟩
  show TextAIDetector.calculate_confidence (wordsOf t₁).length ≤
    TextAIDetector.calculate_confidence (wordsOf t₂).length
  exact calculate_confidence_mono h

/-- C7 witness: 1 word versus 10 words. -/
theorem claim_C7_witness :
    (wordsOf "hi").length ≤ (wordsOf "a b c d e f g h i j").length ∧
    (TextAIDetector.heuristic_detection "hi").confidence ≤
      (TextAIDetector.heuristic_detection "a b c d e f g h i j").confidence := by
  have h : (wordsOf "hi").length ≤ (wordsOf "a b c d e f g h i j").length := by decide
  exact ⟨h, claim_C7_confidence.2.2 "hi" "a b c d e f g h i j" h⟩

/-- C10: heuristic-tier text detection is deterministic: two invocations of
`_heuristic_detection` on the same string produce identical results
(probability, confidence and analysis payload), the function being pure. -/
theorem claim_C10_deterministic (t : String) (r₁ r₂ : TextAIDetector.TextResult)
    (h₁ : r₁ = TextAIDetector.heuristic_detection t)
    (h₂ : r₂ = TextAIDetector.heuristic_detection t) :
    r₁ = r₂ ∧ r₁.ai_probability = r₂.ai_probability ∧
    r₁.confidence = r₂.confidence ∧ r₁.analysis.method = r₂.analysis.method := by
  subst h₁
  subst h₂
  exact ⟨rfl, rfl, rfl, rfl⟩

/-- C10 witness: two invocations on `"hi"`. -/
theorem claim_C10_witness :
    TextAIDetector.heuristic_detection "hi" = TextAIDetector.heuristic_detection "hi" ∧
    (TextAIDetector.heuristic_detection "hi").ai_probability =
      (TextAIDetector.heuristic_detection "hi").ai_probability ∧
    (TextAIDetector.heuristic_detection "hi").confidence =
      (TextAIDetector.heuristic_detection "hi").confidence ∧
    (TextAIDetector.heuristic_detection "hi").analysis.method =
      (TextAIDetector.heuristic_detection "hi").analysis.method :=
  claim_C10_deterministic "hi" _ _ rfl rfl

/-- C2: no exception escapes `detect`: for every non-empty string and every
behaviour of the external ML library, `TextAIDetector.detect` returns a
result, and likewise `ImageAIDetector.detect` for every non-empty byte
sequence and every behaviour of the external CV library. -/
theorem claim_C2_no_exception :
    (∀ (P : Type) (env : TextAIDetector.MLEnv P) (t : String), t ≠ "" →
      ∃ r, TextAIDetector.detect env t = .ok r) ∧
    (∀ (Img : Type) (env : ImageAIDetector.CVEnv Img) (data : List ℕ), data ≠ [] →
      ∃ r, ImageAIDetector.detect env data = .ok r) := by
  constructor
  · intro P env t _
    unfold TextAIDetector.detect TextAIDetector.ml_detection
    by_cases hc : (env.transformersAvailable && env.modelLoaded) = true
    · rw [if_pos hc]
      cases h : TextAIDetector.ml_detection_try env t with
      | ok r => exact ⟨r, rfl⟩
      | error e => exact ⟨TextAIDetector.heuristic_detection t, rfl⟩
    · rw [if_neg hc]
      exact ⟨TextAIDetector.heuristic_detection t, rfl⟩
  · intro Img env data _
    unfold ImageAIDetector.detect ImageAIDetector.advanced_detection
    by_cases hc : env.opencvAvailable = true
    · rw [if_pos hc]
      cases h : ImageAIDetector.advanced_detection_try env data with
      | ok r => exact ⟨r, rfl⟩
      | error e => exact ⟨ImageAIDetector.basic_detection data, rfl⟩
    · rw [if_neg hc]
      exact ⟨ImageAIDetector.basic_detection data, rfl⟩

/-- C2 witness: the concrete environments at `"hi"` and `[0]`. -/
theorem claim_C2_witness :
    ("hi" ≠ "" ∧ ∃ r, TextAIDetector.detect mlEnvOk "hi" = .ok r) ∧
    (([0] : List ℕ) ≠ [] ∧ ∃ r, ImageAIDetector.detect cvEnvNone [0] = .ok r) :=
  ⟨⟨by decide, claim_C2_no_exception.1 Unit mlEnvOk "hi" (by decide)⟩,
   ⟨by decide, claim_C2_no_exception.2 Unit cvEnvNone [0] (by decide)⟩⟩

/-- C1 counterexample: with OpenCV available and `cv2.imdecode` returning
`None` (garbage bytes), `detect` returns the basic-tier result, whose
confidence is `0.5`, probability `0.3` and method `"basic"` — not the
terminal fallback `(0.5, 0.3, "fallback")` that the claim demands. -/
theorem claim_C1_counterexample :
    cvEnvNone.imdecode [0] = .ok none ∧
    ImageAIDetector.detect cvEnvNone [0] = .ok (ImageAIDetector.basic_detection [0]) ∧
    ¬ ((ImageAIDetector.basic_detection [0]).ai_probability = 0.5 ∧
       (ImageAIDetector.basic_detection [0]).confidence = 0.3 ∧
       (ImageAIDetector.basic_detection [0]).analysis.method = "fallback") := by
  refine ⟨rfl, rfl, fun h => ?_⟩
  have := h.1
  rw [show (ImageAIDetector.basic_detection [0]).ai_probability = 0.3 from by
    norm_num [ImageAIDetector.basic_detection, ImageAIDetector.analyze_metadata]] at this
  norm_num at this

/-- C1 (amended): for every byte sequence on which `cv2.imdecode` fails or
returns `None`, `detect` never raises and returns the basic-tier result:
method `"basic"`, confidence `0.5`, and
`ai_probability = clamp(metadata_score, 0.2, 0.8)`. -/
theorem claim_C1_garbage_basic {Img : Type} (env : ImageAIDetector.CVEnv Img)
    (data : List ℕ) (_hne : data ≠ [])
    (hdec : env.imdecode data = .ok none ∨ env.imdecode data = .error ()) :
    ImageAIDetector.detect env data = .ok (ImageAIDetector.basic_detection data) ∧
    (ImageAIDetector.basic_detection data).analysis.method = "basic" ∧
    (ImageAIDetector.basic_detection data).confidence = 0.5 ∧
    (ImageAIDetector.basic_detection data).ai_probability =
      min 0.8 (max 0.2 (ImageAIDetector.analyze_metadata data)) := by
  refine ⟨?_, rfl, rfl, rfl⟩
  unfold ImageAIDetector.detect ImageAIDetector.advanced_detection
  by_cases hc : env.opencvAvailable = true
  · rw [if_pos hc]
    rcases hdec with h | h <;>
      simp [ImageAIDetector.advanced_detection_try, h, Except.bind]
  · rw [if_neg hc]

/-- C1 witness: the environment whose decoder always yields `None`, on the
one-byte garbage payload `[0]`. -/
theorem claim_C1_witness :
    ([0] : List ℕ) ≠ [] ∧
    (cvEnvNone.imdecode [0] = .ok none ∨ cvEnvNone.imdecode [0] = .error ()) ∧
    ImageAIDetector.detect cvEnvNone [0] = .ok (ImageAIDetector.basic_detection [0]) ∧
    (ImageAIDetector.basic_detection [0]).analysis.method = "basic" ∧
    (ImageAIDetector.basic_detection [0]).confidence = 0.5 ∧
    (ImageAIDetector.basic_detection [0]).ai_probability =
      min 0.8 (max 0.2 (ImageAIDetector.analyze_metadata [0])) :=
  ⟨by decide, Or.inl rfl, claim_C1_garbage_basic cvEnvNone [0] (by decide) (Or.inl rfl)⟩

open TextAIDetector

/-- C3: for every non-empty text under the heuristic tier, `ai_probability`
equals `clamp(0.3*repetition + 0.2*vocab + 0.25*structure + 0.25*perplexity,
0, 1)` where the sub-scores are those computed by the four sub-analyzers; in
particular it lies in `[0, 1]`. -/
theorem claim_C3_fusion (t : String) (_hne : t ≠ "") :
    (heuristic_detection t).ai_probability =
      min 1 (max 0 (0.3 * (analyze_repetition t : ℝ) +
        0.2 * (analyze_vocabulary_diversity t : ℝ) +
        0.25 * analyze_sentence_structure t + 0.25 * calculate_perplexity t)) ∧
    0 ≤ (heuristic_detection t).ai_probability ∧
    (heuristic_detection t).ai_probability ≤ 1 := by
  have h0 : (heuristic_detection t).ai_probability =
      min 1 (max 0 (((analyze_repetition t : ℝ) * 0.3 +
        (analyze_vocabulary_diversity t : ℝ) * 0.2 +
        analyze_sentence_structure t * 0.25 + calculate_perplexity t * 0.25) /
        (0.3 + 0.2 + 0.25 + 0.25))) := rfl
  have h1 : ((analyze_repetition t : ℝ) * 0.3 +
      (analyze_vocabulary_diversity t : ℝ) * 0.2 +
      analyze_sentence_structure t * 0.25 + calculate_perplexity t * 0.25) /
      (0.3 + 0.2 + 0.25 + 0.25) =
      0.3 * (analyze_repetition t : ℝ) + 0.2 * (analyze_vocabulary_diversity t : ℝ) +
      0.25 * analyze_sentence_structure t + 0.25 * calculate_perplexity t := by
    norm_num
    ring
  refine ⟨by rw [h0, h1], ?_, ?_⟩
  · rw [h0]
    exact le_min (by norm_num) (le_max_left 0 _)
  · rw [h0]
    exact min_le_left 1 _

/-- C3 witness: the single-word text `"hi"`. -/
theorem claim_C3_witness :
    "hi" ≠ "" ∧
    ((heuristic_detection "hi").ai_probability =
      min 1 (max 0 (0.3 * (analyze_repetition "hi" : ℝ) +
        0.2 * (analyze_vocabulary_diversity "hi" : ℝ) +
        0.25 * analyze_sentence_structure "hi" + 0.25 * calculate_perplexity "hi")) ∧
    0 ≤ (heuristic_detection "hi").ai_probability ∧
    (heuristic_detection "hi").ai_probability ≤ 1) :=
  ⟨by decide, claim_C3_fusion "hi" (by decide)⟩

/-- C4 counterexample: the claim quantifies over all single-word texts, but
for the single-word text `"hi.,."` the sentence split is `["hi", ","]`, so
the structure sub-analyzer returns `1.0` (not `0.5`) and the fused
`ai_probability` is `0.625` (not `0.5`). -/
theorem claim_C4_counterexample :
    (wordsOf "hi.,.").length = 1 ∧
    analyze_sentence_structure "hi.,." = 1 ∧
    analyze_sentence_structure "hi.,." ≠ 0.5 ∧
    (heuristic_detection "hi.,.").ai_probability = 0.625 ∧
    (heuristic_detection "hi.,.").ai_probability ≠ 0.5 := by
  have hsent : ((sentenceSplit "hi.,.").filter (fun s => pyStrip s ≠ "")).map pyStrip =
      ["hi", ","] := rfl
  have hlens : (["hi", ","] : List String).map (fun s => (splitWsCount s : ℚ)) =
      [(1 : ℚ), 1] := by decide
  have hmean : npMean [(1 : ℚ), 1] = 1 := by norm_num [npMean]
  have hvar : npVariance [(1 : ℚ), 1] = 0 := by norm_num [npVariance, npMean]
  have hs1 : analyze_sentence_structure "hi.,." = 1 := by
    simp only [analyze_sentence_structure, hsent, hlens, hmean, hvar]
    norm_num [Real.sqrt_zero]
  have h0 : (heuristic_detection "hi.,.").ai_probability =
      min 1 (max 0 (((analyze_repetition "hi.,." : ℝ) * 0.3 +
        (analyze_vocabulary_diversity "hi.,." : ℝ) * 0.2 +
        analyze_sentence_structure "hi.,." * 0.25 + calculate_perplexity "hi.,." * 0.25) /
        (0.3 + 0.2 + 0.25 + 0.25))) := rfl
  have hr : analyze_repetition "hi.,." = 0.5 := rfl
  have hv : analyze_vocabulary_diversity "hi.,." = 0.5 := rfl
  have hp : calculate_perplexity "hi.,." = 0.5 := rfl
  have hai : (heuristic_detection "hi.,.").ai_probability = 0.625 := by
    rw [h0, hr, hv, hs1, hp]
    norm_num
  refine ⟨rfl, hs1, by rw [hs1]; norm_num, hai, by rw [hai]; norm_num⟩

/-- C4 (amended): for the input text `"hi"` under the heuristic tier, all
four sub-analyzers return `0.5`, the fused `ai_probability` is `0.5`, and
the confidence is `0.3` because the word count `1` is below `10`.  (The
generalisation to every single-word text fails, see the counterexample.) -/
theorem claim_C4_hi :
    analyze_repetition "hi" = 0.5 ∧
    analyze_vocabulary_diversity "hi" = 0.5 ∧
    analyze_sentence_structure "hi" = 0.5 ∧
    calculate_perplexity "hi" = 0.5 ∧
    (heuristic_detection "hi").ai_probability = 0.5 ∧
    (extract_writing_features "hi").word_count = 1 ∧
    (heuristic_detection "hi").confidence = 0.3 := by
  have hr : analyze_repetition "hi" = 0.5 := rfl
  have hv : analyze_vocabulary_diversity "hi" = 0.5 := rfl
  have hs : analyze_sentence_structure "hi" = 0.5 := rfl
  have hp : calculate_perplexity "hi" = 0.5 := rfl
  have h0 : (heuristic_detection "hi").ai_probability =
      min 1 (max 0 (((analyze_repetition "hi" : ℝ) * 0.3 +
        (analyze_vocabulary_diversity "hi" : ℝ) * 0.2 +
        analyze_sentence_structure "hi" * 0.25 + calculate_perplexity "hi" * 0.25) /
        (0.3 + 0.2 + 0.25 + 0.25))) := rfl
  have hai : (heuristic_detection "hi").ai_probability = 0.5 := by
    rw [h0, hr, hv, hs, hp]
    norm_num
  exact ⟨hr, hv, hs, hp, hai, rfl, rfl⟩

/-- C5 counterexample: on the successful ML path the analysis payload keys
are exactly `["method", "model", "features", "perplexity"]`; the repetition,
vocabulary and structure SignalScores are absent, contrary to the claim. -/
theorem claim_C5_counterexample :
    (TextAIDetector.detect mlEnvOk "hi").map (fun r => r.analysis.method) =
      .ok "ml_model" ∧
    (TextAIDetector.detect mlEnvOk "hi").map (fun r => r.analysis.keys) =
      .ok ["method", "model", "features", "perplexity"] ∧
    "repetition_score" ∉ (["method", "model", "features", "perplexity"] : List String) ∧
    "vocab_score" ∉ (["method", "model", "features", "perplexity"] : List String) ∧
    "structure_score" ∉ (["method", "model", "features", "perplexity"] : List String) :=
  ⟨rfl, rfl, by decide, by decide, by decide⟩

/-- C5 (amended): on the successful ML path, the analysis payload reports the
method tag `"ml_model"`, the model tag, the WritingFeatures and the
perplexity score — but not the repetition, vocabulary or structure scores. -/
theorem claim_C5_ml_payload {P : Type} (env : MLEnv P) (t : String) (p : P) (wc : ℕ)
    (hA : env.transformersAvailable = true) (hM : env.modelLoaded = true)
    (hR : env.modelRun t = .ok p) (hW : env.probsWordCount p = .ok wc) :
    TextAIDetector.detect env t = .ok
      ⟨calculate_ai_probability env t p, calculate_confidence wc,
       .mlModel "transformers" (extract_writing_features t) (calculate_perplexity t)⟩ ∧
    (TextAnalysis.mlModel "transformers" (extract_writing_features t)
      (calculate_perplexity t)).method = "ml_model" ∧
    (TextAnalysis.mlModel "transformers" (extract_writing_features t)
      (calculate_perplexity t)).keys = ["method", "model", "features", "perplexity"] := by
  refine ⟨?_, rfl, rfl⟩
  simp [TextAIDetector.detect, ml_detection, ml_detection_try, hA, hM, hR, hW]

/-- C5 witness: the concrete all-succeeding ML environment on `"hi"`. -/
theorem claim_C5_witness :
    mlEnvOk.transformersAvailable = true ∧ mlEnvOk.modelLoaded = true ∧
    mlEnvOk.modelRun "hi" = .ok () ∧ mlEnvOk.probsWordCount () = .ok 5 ∧
    (TextAIDetector.detect mlEnvOk "hi" = .ok
      ⟨calculate_ai_probability mlEnvOk "hi" (), calculate_confidence 5,
       .mlModel "transformers" (extract_writing_features "hi") (calculate_perplexity "hi")⟩ ∧
    (TextAnalysis.mlModel "transformers" (extract_writing_features "hi")
      (calculate_perplexity "hi")).method = "ml_model" ∧
    (TextAnalysis.mlModel "transformers" (extract_writing_features "hi")
      (calculate_perplexity "hi")).keys = ["method", "model", "features", "perplexity"]) :=
  ⟨rfl, rfl, rfl, rfl, claim_C5_ml_payload mlEnvOk "hi" () 5 rfl rfl rfl rfl⟩

/-- C8: a 50-word text in which one bigram occurs 20 times has a strictly
greater repetition score than any text of at least 10 words with no repeated
bigrams and no repeated trigrams, whose score is 0. -/
theorem claim_C8_repetition (t₁ t₂ : String)
    (h50 : (wordsOf t₁).length = 50)
    (hb : ∃ b, (bigramsList (wordsOf t₁)).count b = 20)
    (h10 : 10 ≤ (wordsOf t₂).length)
    (hnb : (bigramsList (wordsOf t₂)).Nodup)
    (hnt : (trigramsList (wordsOf t₂)).Nodup) :
    analyze_repetition t₂ = 0 ∧
    analyze_repetition t₂ < analyze_repetition t₁ := by
  have h2 : analyze_repetition t₂ = 0 := by
    simp only [analyze_repetition]
    rw [if_neg (by omega)]
    rw [List.dedup_eq_self.mpr hnb, List.dedup_eq_self.mpr hnt]
    simp
  have h1 : analyze_repetition t₁ = 1 := by
    obtain ⟨b, hbcount⟩ := hb
    simp only [analyze_repetition]
    rw [if_neg (by omega)]
    have hlen : (bigramsList (wordsOf t₁)).length = 49 := by
      rw [length_bigramsList, h50]
    have hded := count_add_dedup_le (bigramsList (wordsOf t₁)) b
    have hbrep : 19 ≤ (bigramsList (wordsOf t₁)).length -
        (bigramsList (wordsOf t₁)).dedup.length := by omega
    rw [h50]
    apply min_eq_left
    have hcast : (19 : ℚ) ≤
        (((bigramsList (wordsOf t₁)).length - (bigramsList (wordsOf t₁)).dedup.length +
          ((trigramsList (wordsOf t₁)).length - (trigramsList (wordsOf t₁)).dedup.length) : ℕ) : ℚ) := by
      exact_mod_cast le_trans hbrep (Nat.le_add_right _ _)
    have hmax : ((max 50 1 : ℕ) : ℚ) = 50 := by norm_num
    rw [hmax]
    linarith
  exact ⟨h2, by rw [h1, h2]; norm_num⟩

/-- C8 witness: `"a b"` repeated 20 times followed by 10 distinct filler
words (50 words in total), versus 10 distinct words. -/
theorem claim_C8_witness :
    (wordsOf "a b a b a b a b a b a b a b a b a b a b a b a b a b a b a b a b a b a b a b a b c d e f g h i j k l").length = 50 ∧
    (bigramsList (wordsOf "a b a b a b a b a b a b a b a b a b a b a b a b a b a b a b a b a b a b a b a b c d e f g h i j k l")).count "a b" = 20 ∧
    10 ≤ (wordsOf "b c d e f g h i j k").length ∧
    (bigramsList (wordsOf "b c d e f g h i j k")).Nodup ∧
    (trigramsList (wordsOf "b c d e f g h i j k")).Nodup ∧
    (analyze_repetition "b c d e f g h i j k" = 0 ∧
     analyze_repetition "b c d e f g h i j k" <
       analyze_repetition "a b a b a b a b a b a b a b a b a b a b a b a b a b a b a b a b a b a b a b a b c d e f g h i j k l") := by
  have ha : (wordsOf "a b a b a b a b a b a b a b a b a b a b a b a b a b a b a b a b a b a b a b a b c d e f g h i j k l").length = 50 := by
    decide
  have hcnt : (bigramsList (wordsOf "a b a b a b a b a b a b a b a b a b a b a b a b a b a b a b a b a b a b a b a b c d e f g h i j k l")).count "a b" = 20 := by
    decide
  have hc : 10 ≤ (wordsOf "b c d e f g h i j k").length := by decide
  have hd : (bigramsList (wordsOf "b c d e f g h i j k")).Nodup := by decide
  have he : (trigramsList (wordsOf "b c d e f g h i j k")).Nodup := by decide
  exact ⟨ha, hcnt, hc, hd, he,
    claim_C8_repetition _ _ ha ⟨"a b", hcnt⟩ hc hd he⟩

end ClearMind
